import Mathlib

/-!
Shallow embedding of the nombot core (app/api.py, api/response.py,
nombot/api/services/ccxt.py) and verification of its specification claims.

Python values handled by the code are modelled by an arbitrary type `V`;
Python `None` by `Option.none`; a Python exception raised by an external
capability by `PyErr`; a fallible Python computation by `Except`.
Python dicts are modelled as association lists in insertion order, since
the code iterates them in that order.
-/

set_option autoImplicit false

namespace Nombot

/-- Opaque model of an arbitrary Python exception raised by an external
capability (schema engine, exchange client, user callback). -/
structure PyErr where
  msg : String
  deriving Repr, DecidableEq

/-- Python dict assignment `d[k] = v` on a dict modelled as an association
list in insertion order: an existing key keeps its position and gets the new
value, a fresh key is appended at the end. -/
def dictInsert {α : Type} (d : List (String × α)) (k : String) (v : α) :
    List (String × α) :=
  if (d.lookup k).isSome then
    d.map fun kv => if kv.1 = k then (k, v) else kv
  else d ++ [(k, v)]

/-- Replacing every entry keyed `k` in the underlying list by the new pair
makes a lookup of `k` find the new value exactly when `k` was present. -/
theorem lookup_map_replace {α : Type} (k : String) (v : α) :
    ∀ d : List (String × α),
      (d.map fun kv => if kv.1 = k then (k, v) else kv).lookup k =
        if (d.lookup k).isSome then some v else none := by
  intro d
  induction d with
  | nil => simp
  | cons kv rest ih =>
    obtain ⟨k0, v0⟩ := kv
    by_cases hk : k0 = k
    · subst hk
      simp [List.lookup_cons]
    · have hbeq := beq_false_of_ne (fun h => hk h.symm)
      simp only [List.map_cons, if_neg hk, List.lookup_cons, hbeq]
      exact ih

/-- Replacing every entry keyed `k` leaves lookups of any other key alone. -/
theorem lookup_map_replace_ne {α : Type} (k k' : String) (v : α) (hne : k' ≠ k) :
    ∀ d : List (String × α),
      (d.map fun kv => if kv.1 = k then (k, v) else kv).lookup k' = d.lookup k' := by
  intro d
  induction d with
  | nil => simp
  | cons kv rest ih =>
    obtain ⟨k0, v0⟩ := kv
    by_cases hk : k0 = k
    · subst hk
      simp [List.lookup_cons, beq_false_of_ne hne, ih]
    · simp only [List.map_cons, if_neg hk]
      by_cases hk' : k' = k0
      · subst hk'
        simp [List.lookup_cons]
      · simp [List.lookup_cons, beq_false_of_ne hk', ih]

/-- Looking up the key just inserted finds the new value. -/
theorem lookup_dictInsert_self {α : Type} (d : List (String × α)) (k : String) (v : α) :
    (dictInsert d k v).lookup k = some v := by
  unfold dictInsert
  by_cases h : (d.lookup k).isSome
  · simp [h, lookup_map_replace]
  · simp only [h, if_false]
    induction d with
    | nil => simp
    | cons kv rest ih =>
      obtain ⟨k0, v0⟩ := kv
      by_cases hk : k = k0
      · subst hk
        simp [List.lookup_cons] at h
      · have hrest : ¬ (rest.lookup k).isSome := by
          simpa [List.lookup_cons, beq_false_of_ne hk] using h
        simpa [List.lookup_cons, beq_false_of_ne hk] using ih hrest

/-- Looking up any other key is unaffected by `dictInsert`. -/
theorem lookup_dictInsert_ne {α : Type} (d : List (String × α)) (k k' : String) (v : α)
    (hne : k' ≠ k) : (dictInsert d k v).lookup k' = d.lookup k' := by
  unfold dictInsert
  by_cases h : (d.lookup k).isSome
  · simp [h, lookup_map_replace_ne k k' v hne]
  · simp only [h, if_false]
    induction d with
    | nil => simp [List.lookup_cons, beq_false_of_ne hne]
    | cons kv rest ih =>
      obtain ⟨k0, v0⟩ := kv
      by_cases hk' : k' = k0
      · subst hk'
        simp [List.lookup_cons]
      · by_cases hk : k = k0
        · subst hk
          simp [List.lookup_cons] at h
        · have hrest : ¬ (rest.lookup k).isSome := by
            simpa [List.lookup_cons, beq_false_of_ne hk] using h
          simpa [List.lookup_cons, beq_false_of_ne hk'] using ih hrest

/-- When the inserted key is fresh, `dictInsert` appends the pair. -/
theorem dictInsert_of_fresh {α : Type} (d : List (String × α)) (k : String) (v : α)
    (h : d.lookup k = none) : dictInsert d k v = d ++ [(k, v)] := by
  unfold dictInsert
  simp [h]

/-! ### app/api.py — Scheduled Call Adapter -/

/-- A Python value in an action position: either a callable (modelled by the
function the callable computes, taking the single argument `mthd` passes and
either returning a raw result or raising) or a string endpoint name.
This is what `getattr(self.api, callname)` or an `ENDPOINT_OVERRIDES` entry
can yield; Python `None` is `Option.none` around this type. -/
inductive PyAction (V : Type) where
  | callable (f : Option V → Except PyErr V)
  | str (s : String)

/-- The operation handle `self.api` of an `ApiAdapter`, reduced to the
capabilities `ApiAdapter.call` and its helpers consume:
`attrs` models `getattr(self.api, name, None)`;
`endpoint_overrides` models the `ENDPOINT_OVERRIDES` attribute, `none` when
the attribute is missing (so that reading it raises `AttributeError`);
`requestShape` models `self.api.request_schema()` followed by setting
`schema.context` to the first argument of `_generate_request` and running
`schema.dump(request).data.get("payload")` (any exception anywhere in that
block is an `Except.error`);
`resultShape` models `self.api.result_schema()` with `schema.context` set to
the callname and `schema.dump(result).data`;
`call` models `self.api.call(action, args)`. -/
structure ApiHandle (V : Type) where
  attrs : String → Option (PyAction V)
  endpoint_overrides : Option (String → Option (PyAction V))
  requestShape : Option (PyAction V) → Option V → Except PyErr (Option V)
  resultShape : String → V → Except PyErr V
  call : Option (PyAction V) → Option V → Except PyErr V

/-- An exception escaping `ApiAdapter.call`'s thunk: the diagnostic failure
raised by `_generate_request` (carrying the value passed in its callname slot
and the offending request payload), the diagnostic failure raised by
`_generate_result` (carrying the callname and the offending result payload),
or an uncaught exception from the API call itself. -/
inductive ApiFailure (V : Type) where
  | requestDiag (label : Option (PyAction V)) (payload : Option V)
  | resultDiag (callname : String) (payload : V)
  | raw (e : PyErr)

/-- The `ApiAdapter` state the modelled methods read: the operation handle
`self.api` and the context's callback `self.callback` (which receives the
shaped data and may itself raise). -/
structure ApiAdapter (V : Type) where
  api : ApiHandle V
  callback : V → Except PyErr Unit

/-- Action resolution of `ApiAdapter.call` (src/app/api.py lines 146-152):
`action = getattr(self.api, callname, None)`; when that is `None`,
`action = self.api.ENDPOINT_OVERRIDES.get(callname, None)`, except that when
the handle has no `ENDPOINT_OVERRIDES` attribute the `AttributeError` is
caught and `action = callname`. -/
def ApiAdapter.resolveAction {V : Type} (a : ApiAdapter V) (callname : String) :
    Option (PyAction V) :=
  match a.api.attrs callname with
  | some act => some act
  | none =>
      match a.api.endpoint_overrides with
      | some tbl => tbl callname
      | none => some (PyAction.str callname)

/-- Model of `ApiAdapter._generate_request` (src/app/api.py lines 180-189):
runs the request schema dump and on any exception raises the diagnostic
failure naming the first argument and the offending request. Note the first
argument is whatever `mthd` passed in the callname slot (the resolved action
in the non-callable branch, the callname in the callable branch). -/
def ApiAdapter.generate_request {V : Type} (a : ApiAdapter V)
    (label : Option (PyAction V)) (request : Option V) :
    Except (ApiFailure V) (Option V) :=
  match a.api.requestShape label request with
  | Except.ok p => Except.ok p
  | Except.error _ => Except.error (ApiFailure.requestDiag label request)

/-- Model of `ApiAdapter._generate_result` (src/app/api.py lines 191-200):
runs the result schema dump and delivers the shaped data to the callback;
any exception anywhere in the try block (the dump or the callback itself) is
caught and re-raised as the diagnostic failure naming the callname and the
offending raw result. -/
def ApiAdapter.generate_result {V : Type} (a : ApiAdapter V)
    (callname : String) (result : V) : Except (ApiFailure V) Unit :=
  match a.api.resultShape callname result with
  | Except.error _ => Except.error (ApiFailure.resultDiag callname result)
  | Except.ok shaped =>
      match a.callback shaped with
      | Except.error _ => Except.error (ApiFailure.resultDiag callname result)
      | Except.ok _ => Except.ok ()

/-- Model of the thunk `mthd` defined inside `ApiAdapter.call`
(src/app/api.py lines 158-165). When the resolved action is not callable
(a string or `None`), it shapes a request tagged with the action, discards
it, performs `self.api.call(action, args)` and shapes the result; when the
action is callable, it shapes a request tagged with the callname and feeds
the shaped request to the callable. Diagnostic failures from the shaping
helpers and exceptions from the API call propagate. -/
def ApiAdapter.mthd {V : Type} (a : ApiAdapter V) (action : Option (PyAction V))
    (callname : String) (args : Option V) : Except (ApiFailure V) Unit :=
  match action with
  | some (PyAction.callable f) =>
      match a.generate_request (some (PyAction.str callname)) args with
      | Except.error d => Except.error d
      | Except.ok request =>
          match f request with
          | Except.error e => Except.error (ApiFailure.raw e)
          | Except.ok res => a.generate_result callname res
  | some (PyAction.str s) =>
      match a.generate_request (some (PyAction.str s)) args with
      | Except.error d => Except.error d
      | Except.ok _ =>
          match a.api.call (some (PyAction.str s)) args with
          | Except.error e => Except.error (ApiFailure.raw e)
          | Except.ok res => a.generate_result callname res
  | none =>
      match a.generate_request none args with
      | Except.error d => Except.error d
      | Except.ok _ =>
          match a.api.call none args with
          | Except.error e => Except.error (ApiFailure.raw e)
          | Except.ok res => a.generate_result callname res

/-- A registration performed by a successful
`self.scheduler.enter(**sched_args)`: the delay and priority passed in
`sched_args`, the registered action thunk, and the `argument` key, present
as the one-tuple `(arguments,)` exactly when `arguments` was not `None`. -/
structure SchedEntry (V : Type) where
  delay : Nat
  priority : Nat
  action_thunk : Option V → Except (ApiFailure V) Unit
  argument : Option V

/-- The observable outcome of one `ApiAdapter.call` invocation: the thunk
was registered with the scheduler; or `self.scheduler.enter(**sched_args)`
raised a `TypeError` because `sched_args` was nonempty but missing one of
the two required positional parameters `delay` and `priority` of
`sched.scheduler.enter(delay, priority, action, argument=())`, so the thunk
was neither registered nor executed; or the thunk was executed synchronously
inline with the given arguments and produced the recorded outcome. -/
inductive Dispatch (V : Type) where
  | scheduled (entry : SchedEntry V)
  | enterTypeError
  | immediate (outcome : Except (ApiFailure V) Unit)

/-- Model of `ApiAdapter.call` (src/app/api.py lines 137-178): puts the
delay and priority that are not `None` into `sched_args`, resolves the
action and defines `mthd`. When `sched_args` is nonempty it calls
`self.scheduler.enter(**sched_args)`, which registers `mthd` (binding
`(arguments,)` when arguments were given) only when both `delay` and
`priority` are present, and raises `TypeError` when only one of them is —
`sched.scheduler.enter` requires both as positional parameters. When
`sched_args` is empty it runs `mthd(arguments)` / `mthd()` inline. -/
def ApiAdapter.call {V : Type} (a : ApiAdapter V) (callname : String)
    (arguments : Option V) (delay : Option Nat) (priority : Option Nat) :
    Dispatch V :=
  let action := a.resolveAction callname
  match delay, priority with
  | some d, some p => Dispatch.scheduled ⟨d, p, a.mthd action callname, arguments⟩
  | some _, none => Dispatch.enterTypeError
  | none, some _ => Dispatch.enterTypeError
  | none, none => Dispatch.immediate (a.mthd action callname arguments)

/-! ### app/api.py — adapter lifecycle (ApiProduct, run loop) -/

/-- The lifecycle state of an `ApiProduct` that `shutdown` touches: the
keep-going flag, whether the operation handle exposes a shutdown capability
(`hasattr(self.api, "shutdown")`), and whether that capability has been
invoked. -/
structure ApiProductState where
  keep_going : Bool
  api_has_shutdown : Bool
  api_shutdown_called : Bool
  deriving Repr, DecidableEq

/-- Model of `ApiProduct.shutdown` (src/app/api.py lines 77-81): clears the
keep-going flag and, if the operation handle exposes a shutdown capability,
invokes it. -/
def ApiProduct.shutdown (s : ApiProductState) : ApiProductState :=
  let cleared : ApiProductState := ⟨false, s.api_has_shutdown, s.api_shutdown_called⟩
  if cleared.api_has_shutdown then
    ⟨cleared.keep_going, cleared.api_has_shutdown, true⟩
  else cleared

/-- Model of the `loop` closure inside `ApiAdapter.run` (src/app/api.py lines
127-132), recording which configured call names are dispatched: while the
keep-going flag is set, each pass dispatches every configured call and drains
the scheduler, and the flag is consulted at the top of every pass. `fuel`
bounds the number of passes observed. -/
def ApiAdapter.loop (keep_going : Bool) (calls : List String) : Nat → List String
  | 0 => []
  | fuel + 1 =>
      if keep_going then calls ++ ApiAdapter.loop keep_going calls fuel
      else []

/-! ### nombot/api/services/ccxt.py — Exchange Metadata Loader and Fan-out -/

/-- Classification of an exception raised by a ccxt client call, following
the kinds the dispatcher distinguishes: the two caught exchange-error kinds
(`ExchangeNotAvailable`, `ExchangeError`), a `TypeError` (remapped by
`CCXTExchange.call`), an `AttributeError`, and everything else. -/
inductive CCXTError where
  | exchangeNotAvailable
  | exchangeError
  | typeError (e : PyErr)
  | attributeError (msg : String)
  | other (e : PyErr)
  deriving Repr, DecidableEq

/-- The underlying ccxt client object `self._ex` of one exchange, reduced to
the capabilities the embedded code consumes: the market catalogue returned by
a successful `load_markets()`, the `currencies` and `symbols` attributes it
exposes afterwards, and its callable endpoints (`getattr(self._ex, name)`,
`none` when the attribute is missing). -/
structure CCXTClient (V : Type) where
  loaded_markets : List (String × V)
  currencies : List (String × V)
  symbols : List String
  methods : String → Option (Option V → Except CCXTError V)

/-- The `CCXTExchange` dataclass (src/nombot/api/services/ccxt.py lines
16-33): its name, the configured currency list (the Python `None` default is
modelled as the empty list, since the code only tests it for truthiness and
iterates it), the wrapped client, and the metadata fields populated by
`load`, each `none` until populated. -/
structure CCXTExchange (V : Type) where
  name : String
  currencies : List String
  _ex : CCXTClient V
  avail_currencies : Option (List (String × V)) := none
  _currencies : Option (List (String × V)) := none
  avail_markets : Option (List (String × V)) := none
  markets : Option (List (String × V)) := none
  avail_symbols : Option (List String) := none
  symbols : Option (List String) := none

/-- Python `"/".join(pair)` for a pair of currency names. -/
def joinPair (p : String × String) : String := p.1 ++ "/" ++ p.2

/-- The configured-currency dict computed by `load` (src/nombot/api/
services/ccxt.py lines 52-62): all available currencies when none are
configured, otherwise the configured names that are available, each with its
available entry. -/
def confCurrenciesOf {V : Type} (ex : CCXTExchange V) : List (String × V) :=
  if ex.currencies.isEmpty then ex._ex.currencies
  else ex.currencies.filterMap fun curr =>
    (ex._ex.currencies.lookup curr).map fun v => (curr, v)

/-- The derived symbol universe computed by `load` (src/nombot/api/services/
ccxt.py lines 64-70): the slash-join of every ordered pair drawn from the
configured-currency keys whose join is an available symbol. -/
def symbolsOf {V : Type} (ex : CCXTExchange V) : List String :=
  ((List.product ((confCurrenciesOf ex).map Prod.fst)
      ((confCurrenciesOf ex).map Prod.fst)).filter fun pair =>
    decide (joinPair pair ∈ ex._ex.symbols)).map joinPair

/-- The markets restricted to the derived symbol universe (src/nombot/api/
services/ccxt.py lines 72-75); `none` models the `KeyError` raised by
`avail_markets[sym]` when a derived symbol has no market entry. -/
def marketsOf {V : Type} (ex : CCXTExchange V) : Option (List (String × V)) :=
  (symbolsOf ex).mapM fun sym =>
    (ex._ex.loaded_markets.lookup sym).map fun v => (sym, v)

/-- Model of `CCXTExchange.load` (src/nombot/api/services/ccxt.py lines
45-75) run against a client whose `load_markets` succeeds. Returns early
when markets are already populated and no reload is forced; otherwise
populates the available catalogues, the configured-currency intersection,
the derived symbol universe and the restricted markets. -/
def CCXTExchange.load {V : Type} (ex : CCXTExchange V) (reload : Bool) :
    Option (CCXTExchange V) :=
  if ex.markets.isSome && !reload then some ex
  else
    match marketsOf ex with
    | none => none
    | some markets =>
        some { ex with
          avail_markets := some ex._ex.loaded_markets
          avail_currencies := some ex._ex.currencies
          _currencies := some (confCurrenciesOf ex)
          avail_symbols := some ex._ex.symbols
          symbols := some (symbolsOf ex)
          markets := some markets }

/-- Model of `CCXTExchange.call` (src/nombot/api/services/ccxt.py lines
87-93), with `ex.loop.run_until_complete` around it: fetches the endpoint
from the client (a missing attribute raises `AttributeError` from `getattr`),
invokes it, and remaps a `TypeError` into an `AttributeError` naming the
callname; every other outcome passes through. -/
def CCXTExchange.call {V : Type} (ex : CCXTExchange V) (callname : String)
    (args : Option V) : Except CCXTError V :=
  match ex._ex.methods callname with
  | none => Except.error (CCXTError.attributeError callname)
  | some f =>
      match f args with
      | Except.error (CCXTError.typeError _) =>
          Except.error (CCXTError.attributeError
            ("Failed to execute call " ++ callname ++ " on exchange " ++ ex.name))
      | r => r

/-- The two exchange-error kinds `call_on_exchanges` catches. -/
def CCXTError.isExchangeKind : CCXTError → Bool
  | CCXTError.exchangeNotAvailable => true
  | CCXTError.exchangeError => true
  | _ => false

/-- The loop body of `CCXT.call_on_exchanges` (src/nombot/api/services/
ccxt.py lines 116-125), iterating the remaining exchanges with the results
dict accumulated so far: a successful call stores its result under the
exchange's name, the two exchange-error kinds are swallowed and the exchange
skipped, and any other exception propagates, aborting the dispatch. -/
def callOnExchangesAux {V : Type} (callname : String) (args : Option V) :
    List (CCXTExchange V) → List (String × V) → Except CCXTError (List (String × V))
  | [], results => Except.ok results
  | ex :: rest, results =>
      match ex.call callname args with
      | Except.ok v => callOnExchangesAux callname args rest (dictInsert results ex.name v)
      | Except.error CCXTError.exchangeNotAvailable => callOnExchangesAux callname args rest results
      | Except.error CCXTError.exchangeError => callOnExchangesAux callname args rest results
      | Except.error e => Except.error e

/-- Model of `CCXT.call_on_exchanges`: iterates the values of the class-level
exchange mapping in insertion order, starting from an empty results dict. -/
def CCXT.call_on_exchanges {V : Type} (class_ex : List (String × CCXTExchange V))
    (callname : String) (args : Option V) : Except CCXTError (List (String × V)) :=
  callOnExchangesAux callname args (class_ex.map Prod.snd) []

/-- Model of `CCXT.__init__` (src/nombot/api/services/ccxt.py lines
109-114). `CCXT._ex` is a class-level dict, so the constructor receives the
mapping accumulated by every previous construction and returns it extended:
a `None` or empty exchange list is replaced by the full `ccxt.exchanges`
catalogue, and each named exchange is constructed (modelled by `mk`, which
stands for `CCXTExchange(exch, symbols, rate_limit)`) and stored into the
shared mapping under its name. -/
def CCXT.init {V : Type} (ccxt_exchanges : List String)
    (mk : String → CCXTExchange V) (class_ex : List (String × CCXTExchange V))
    (exchanges : Option (List String)) : List (String × CCXTExchange V) :=
  let exchs := match exchanges with
    | none => ccxt_exchanges
    | some l => if l.isEmpty then ccxt_exchanges else l
  exchs.foldl (fun d exch => dictInsert d exch (mk exch)) class_ex

/-! ### api/response.py — Result shaper -/

/-- The bare `Result` object (src/api/response.py lines 27-33): every field
defaults to `None` and only the keyword arguments passed to the constructor
are populated. -/
structure Result (V : Type) where
  channel : Option String := none
  callname : Option String := none
  result : Option V := none
  errors : Option V := none

/-- Model of `ResponseSchema.populate_data` (src/api/response.py lines
47-58). `response_map` models the `RESPONSE_MAP` table of per-callname
result schemas (its `dump`, which may itself raise); `emptyStr` models the
empty-string default of `get_result`, whose stock implementation returns
`data.get("result", "")`; `channel` and `callname` are the schema context
entries. When the parsed data has an `errors` key, a `Result` carrying only
that value is returned; otherwise the per-callname schema is fetched (a
missing `RESPONSE_MAP` entry raises `KeyError`, modelled by `none`) and a
`Result` with channel, callname and the dumped result is built. -/
def ResponseSchema.populate_data {V : Type}
    (response_map : String → Option (V → Except PyErr V)) (emptyStr : V)
    (channel : Option String) (callname : Option String)
    (data : List (String × V)) : Option (Result V) :=
  if (data.lookup "errors").isSome then
    some { errors := data.lookup "errors" }
  else
    match callname.bind response_map with
    | none => none
    | some dump =>
        match dump ((data.lookup "result").getD emptyStr) with
        | Except.error _ => none
        | Except.ok shaped =>
            some { channel := channel, callname := callname, result := some shaped }

/-! ### Concrete instances used by counterexamples and witnesses -/

/-- An operation handle that has an `ENDPOINT_OVERRIDES` table, but neither a
same-named attribute nor a table entry for any operation name. -/
def tableOnlyHandle : ApiHandle Nat where
  attrs := fun _ => none
  endpoint_overrides := some fun _ => none
  requestShape := fun _ r => Except.ok r
  resultShape := fun _ v => Except.ok v
  call := fun _ _ => Except.ok 0

/-- An adapter around `tableOnlyHandle` with a callback that never raises. -/
def tableOnlyAdapter : ApiAdapter Nat := ⟨tableOnlyHandle, fun _ => Except.ok ()⟩

/-- An operation handle with no attributes at all, so that reading
`ENDPOINT_OVERRIDES` raises `AttributeError`. -/
def bareHandle : ApiHandle Nat where
  attrs := fun _ => none
  endpoint_overrides := none
  requestShape := fun _ r => Except.ok r
  resultShape := fun _ v => Except.ok v
  call := fun _ _ => Except.ok 0

/-- An adapter around `bareHandle` with a callback that never raises. -/
def bareAdapter : ApiAdapter Nat := ⟨bareHandle, fun _ => Except.ok ()⟩

/-! ### Claim C1 -/

/-- C1 counterexample: on a handle whose `ENDPOINT_OVERRIDES` table exists
but lacks the operation name (and which has no same-named attribute), the
resolved action is Python `None`, not the literal operation name, refuting
the claimed fallback of the resolution precedence. -/
theorem C1_counterexample :
    tableOnlyAdapter.api.attrs "ticker" = none ∧
    (∃ tbl, tableOnlyAdapter.api.endpoint_overrides = some tbl ∧ tbl "ticker" = none) ∧
    tableOnlyAdapter.resolveAction "ticker" ≠ some (PyAction.str "ticker") ∧
    tableOnlyAdapter.resolveAction "ticker" = none := by
  have h0 : tableOnlyAdapter.resolveAction "ticker" = none := rfl
  exact ⟨rfl, ⟨fun _ => none, rfl, rfl⟩, by rw [h0]; simp, h0⟩

/-- C1 (amended): for every operation name passed to the Scheduled Call
Adapter's call, a same-named attribute on the operation handle is used if
present; otherwise, if the handle has an `ENDPOINT_OVERRIDES` table, that
table's entry for the name is used (Python `None` when the table lacks the
name); the literal operation name itself is used only when the handle has no
`ENDPOINT_OVERRIDES` table at all. -/
theorem C1_resolution_precedence {V : Type} (a : ApiAdapter V) (callname : String) :
    (∀ act, a.api.attrs callname = some act → a.resolveAction callname = some act) ∧
    (a.api.attrs callname = none →
      ∀ tbl, a.api.endpoint_overrides = some tbl →
        a.resolveAction callname = tbl callname) ∧
    (a.api.attrs callname = none → a.api.endpoint_overrides = none →
      a.resolveAction callname = some (PyAction.str callname)) := by
  refine ⟨?_, ?_, ?_⟩ <;> intros <;> simp_all [ApiAdapter.resolveAction]

/-- C1 witness: the amended precedence evaluated on concrete handles — a
handle with no `ENDPOINT_OVERRIDES` attribute resolves to the literal name,
and a handle whose table lacks the name resolves to the table's `None`. -/
theorem C1_witness :
    bareAdapter.resolveAction "ticker" = some (PyAction.str "ticker") ∧
    tableOnlyAdapter.resolveAction "ticker" = (fun _ => none : String → Option (PyAction Nat)) "ticker" :=
  ⟨(C1_resolution_precedence bareAdapter "ticker").2.2 rfl rfl,
   (C1_resolution_precedence tableOnlyAdapter "ticker").2.1 rfl (fun _ => none) rfl⟩

/-! ### Claim C4 -/

/-- C4: a shaped Result never has both its result and errors fields
populated — when the parsed data contains an errors key, a Result with only
the errors field set is returned, and otherwise any Result produced has a
populated result field and no errors. -/
theorem C4_result_error_exclusive {V : Type}
    (response_map : String → Option (V → Except PyErr V)) (emptyStr : V)
    (channel callname : Option String) (data : List (String × V)) :
    (∀ r, ResponseSchema.populate_data response_map emptyStr channel callname data = some r →
        ¬ (r.result.isSome ∧ r.errors.isSome)) ∧
    ((data.lookup "errors").isSome →
      ResponseSchema.populate_data response_map emptyStr channel callname data =
        some { errors := data.lookup "errors" }) ∧
    (data.lookup "errors" = none →
      ∀ r, ResponseSchema.populate_data response_map emptyStr channel callname data = some r →
        r.result.isSome ∧ r.errors = none) := by
  unfold ResponseSchema.populate_data
  by_cases herr : (data.lookup "errors").isSome
  · refine ⟨?_, ?_, ?_⟩
    · intro r hr
      simp only [herr, if_true, Option.some.injEq] at hr
      subst hr
      simp
    · intro _
      simp [herr]
    · intro hnone
      rw [hnone] at herr
      simp at herr
  · refine ⟨?_, ?_, ?_⟩
    · intro r hr
      simp only [herr, if_false] at hr
      cases hmap : callname.bind response_map with
      | none => rw [hmap] at hr; cases hr
      | some dump =>
          rw [hmap] at hr
          dsimp only at hr
          cases hdump : dump ((data.lookup "result").getD emptyStr) with
          | error e => rw [hdump] at hr; dsimp only at hr; cases hr
          | ok shaped =>
              rw [hdump] at hr
              dsimp only at hr
              cases hr
              simp
    · intro h; exact absurd h herr
    · intro _ r hr
      simp only [herr, if_false] at hr
      cases hmap : callname.bind response_map with
      | none => rw [hmap] at hr; cases hr
      | some dump =>
          rw [hmap] at hr
          dsimp only at hr
          cases hdump : dump ((data.lookup "result").getD emptyStr) with
          | error e => rw [hdump] at hr; dsimp only at hr; cases hr
          | ok shaped =>
              rw [hdump] at hr
              dsimp only at hr
              cases hr
              simp

/-- C4 witness: the exclusivity evaluated on a concrete payload carrying an
errors key and on a concrete successful payload. -/
theorem C4_witness :
    @ResponseSchema.populate_data Nat (fun _ => some fun v => Except.ok v) 0
        (some "chan") (some "ticker") [("errors", 7)] = some { errors := some 7 } ∧
    ((@ResponseSchema.populate_data Nat (fun _ => some fun v => Except.ok v) 0
        (some "chan") (some "ticker") [("result", 3)]).get rfl).result.isSome ∧
    ((@ResponseSchema.populate_data Nat (fun _ => some fun v => Except.ok v) 0
        (some "chan") (some "ticker") [("result", 3)]).get rfl).errors = none :=
  ⟨(@C4_result_error_exclusive Nat (fun _ => some fun v => Except.ok v) 0
      (some "chan") (some "ticker") [("errors", 7)]).2.1 (by decide),
   ((@C4_result_error_exclusive Nat (fun _ => some fun v => Except.ok v) 0
      (some "chan") (some "ticker") [("result", 3)]).2.2 (by decide) _ rfl).1,
   ((@C4_result_error_exclusive Nat (fun _ => some fun v => Except.ok v) 0
      (some "chan") (some "ticker") [("result", 3)]).2.2 (by decide) _ rfl).2⟩

/-! ### Claim C5 -/

/-- C5 counterexample: on a concrete adapter, a call given a delay but no
priority — and likewise a priority but no delay — ends in the `TypeError`
raised by `scheduler.enter`, so the thunk is neither registered with the
scheduler as the claim states nor executed. -/
theorem C5_counterexample :
    bareAdapter.call "ticker" (some 9) (some 5) none = Dispatch.enterTypeError ∧
    bareAdapter.call "ticker" (some 9) none (some 1) = Dispatch.enterTypeError :=
  ⟨rfl, rfl⟩

/-- C5 (amended): if both a delay and a priority are given, the call thunk
is registered with the scheduler instead of being executed, with the
arguments (if any) bound as its sole parameter; if exactly one of the two is
given, `scheduler.enter` raises a `TypeError` for the missing required
positional parameter and the thunk is neither registered nor executed; if
neither is given, the thunk executes synchronously and immediately
inline. -/
theorem C5_dispatch {V : Type} (a : ApiAdapter V) (callname : String)
    (arguments : Option V) :
    (∀ d p : Nat, a.call callname arguments (some d) (some p) =
      Dispatch.scheduled
        ⟨d, p, a.mthd (a.resolveAction callname) callname, arguments⟩) ∧
    (∀ d : Nat, a.call callname arguments (some d) none = Dispatch.enterTypeError) ∧
    (∀ p : Nat, a.call callname arguments none (some p) = Dispatch.enterTypeError) ∧
    a.call callname arguments none none =
      Dispatch.immediate (a.mthd (a.resolveAction callname) callname arguments) :=
  ⟨fun _ _ => rfl, fun _ => rfl, fun _ => rfl, rfl⟩

/-! ### Claim C6 -/

/-- A concrete operation handle whose request and result shaping always
raise. -/
def failingShapeHandle : ApiHandle Nat where
  attrs := fun _ => none
  endpoint_overrides := none
  requestShape := fun _ _ => Except.error ⟨"schema mismatch"⟩
  resultShape := fun _ _ => Except.error ⟨"schema mismatch"⟩
  call := fun _ _ => Except.ok 0

/-- An adapter around `failingShapeHandle` with a callback that never
raises. -/
def failingShapeAdapter : ApiAdapter Nat := ⟨failingShapeHandle, fun _ => Except.ok ()⟩

/-- A concrete operation handle with an `ENDPOINT_OVERRIDES` entry mapping
the operation name to a different endpoint name, and shaping that always
raises. -/
def overrideFailingHandle : ApiHandle Nat where
  attrs := fun _ => none
  endpoint_overrides := some fun n =>
    if n = "ticker" then some (PyAction.str "depth") else none
  requestShape := fun _ _ => Except.error ⟨"schema mismatch"⟩
  resultShape := fun _ _ => Except.error ⟨"schema mismatch"⟩
  call := fun _ _ => Except.ok 0

/-- An adapter around `overrideFailingHandle` with a callback that never
raises. -/
def overrideFailingAdapter : ApiAdapter Nat := ⟨overrideFailingHandle, fun _ => Except.ok ()⟩

/-- C6 counterexample: on a concrete adapter whose `ENDPOINT_OVERRIDES`
maps the operation name to a different endpoint, the thunk passes the
resolved action — not the operation name — to the request shaper
(src/app/api.py line 161), so the diagnostic failure raised when request
shaping fails carries the override endpoint name, and differs from the
diagnostic carrying the operation name that the claim asserts. -/
theorem C6_counterexample :
    overrideFailingAdapter.resolveAction "ticker" = some (PyAction.str "depth") ∧
    overrideFailingAdapter.mthd
        (overrideFailingAdapter.resolveAction "ticker") "ticker" (some 3) =
      Except.error (ApiFailure.requestDiag (some (PyAction.str "depth")) (some 3)) ∧
    (Except.error (ApiFailure.requestDiag (some (PyAction.str "depth")) (some 3)) :
        Except (ApiFailure Nat) Unit) ≠
      Except.error (ApiFailure.requestDiag (some (PyAction.str "ticker")) (some 3)) := by
  refine ⟨rfl, rfl, ?_⟩
  intro h
  simp only [Except.error.injEq, ApiFailure.requestDiag.injEq, Option.some.injEq,
    PyAction.str.injEq] at h
  exact absurd h.1 (by decide)

/-- C6 (amended): any exception raised while shaping the request or shaping
the result is caught and re-raised as exactly one diagnostic failure
carrying the offending payload and the value passed in the wrapper's
callname slot, and the call is not retried; for result shaping that value is
the operation name, but for request shaping it is whatever the thunk passed:
the resolved action (an override endpoint name, or Python `None`) in the
non-callable branch, and the operation name only in the callable branch. -/
theorem C6_shaping_diagnostic {V : Type} (a : ApiAdapter V) (callname : String)
    (args : Option V) (result : V) :
    (∀ e, a.api.resultShape callname result = Except.error e →
      a.generate_result callname result =
        Except.error (ApiFailure.resultDiag callname result)) ∧
    (∀ (s : String) e, a.api.requestShape (some (PyAction.str s)) args = Except.error e →
      a.mthd (some (PyAction.str s)) callname args =
        Except.error (ApiFailure.requestDiag (some (PyAction.str s)) args)) ∧
    (∀ e, a.api.requestShape none args = Except.error e →
      a.mthd none callname args =
        Except.error (ApiFailure.requestDiag none args)) ∧
    (∀ (f : Option V → Except PyErr V) e,
      a.api.requestShape (some (PyAction.str callname)) args = Except.error e →
      a.mthd (some (PyAction.callable f)) callname args =
        Except.error (ApiFailure.requestDiag (some (PyAction.str callname)) args)) := by
  refine ⟨?_, ?_, ?_, ?_⟩
  · intro e h
    simp [ApiAdapter.generate_result, h]
  · intro s e h
    simp [ApiAdapter.mthd, ApiAdapter.generate_request, h]
  · intro e h
    simp [ApiAdapter.mthd, ApiAdapter.generate_request, h]
  · intro f e h
    simp [ApiAdapter.mthd, ApiAdapter.generate_request, h]

/-- C6 witness: the diagnostic re-raise evaluated on the concrete adapter
whose shaping raises — a result-shaping failure carries the operation name,
a request-shaping failure in the non-callable branch carries the resolved
override endpoint name. -/
theorem C6_witness :
    overrideFailingAdapter.generate_result "ticker" 3 =
      Except.error (ApiFailure.resultDiag "ticker" 3) ∧
    overrideFailingAdapter.mthd (some (PyAction.str "depth")) "ticker" (some 3) =
      Except.error (ApiFailure.requestDiag (some (PyAction.str "depth")) (some 3)) :=
  ⟨(C6_shaping_diagnostic overrideFailingAdapter "ticker" (some 3) 3).1
      ⟨"schema mismatch"⟩ rfl,
   (C6_shaping_diagnostic overrideFailingAdapter "ticker" (some 3) 3).2.1 "depth"
      ⟨"schema mismatch"⟩ rfl⟩

/-! ### Claim C7 -/

/-- C7: once an exchange's metadata is populated, calling load again without
the reload flag is a no-op — it performs no further loading and leaves every
metadata field unchanged (the whole exchange state is returned as is). -/
theorem C7_load_idempotent {V : Type} (ex : CCXTExchange V) (m : List (String × V))
    (h : ex.markets = some m) : ex.load false = some ex := by
  unfold CCXTExchange.load
  simp [h]

/-- A concrete exchange whose metadata is already populated. -/
def loadedExchange : CCXTExchange Nat where
  name := "binance"
  currencies := ["BTC", "USD"]
  _ex :=
    { loaded_markets := [("BTC/USD", 1)]
      currencies := [("BTC", 0), ("USD", 0)]
      symbols := ["BTC/USD"]
      methods := fun _ => none }
  avail_currencies := some [("BTC", 0), ("USD", 0)]
  _currencies := some [("BTC", 0), ("USD", 0)]
  avail_markets := some [("BTC/USD", 1)]
  markets := some [("BTC/USD", 1)]
  avail_symbols := some ["BTC/USD"]
  symbols := some ["BTC/USD"]

/-- C7 witness: idempotence evaluated on the concrete loaded exchange. -/
theorem C7_witness : loadedExchange.load false = some loadedExchange :=
  C7_load_idempotent loadedExchange [("BTC/USD", 1)] rfl

/-! ### Claim C8 -/

/-- The pair of adapter-state copies that exist once `ApiAdapter.run`
(src/app/api.py line 134) has started the loop in a child
`multiprocessing.Process`: the fork gives the child its own copy of the
adapter state, so from then on the parent's copy (the one the orchestrator
calls `shutdown()` on) and the child's copy (the one the loop closure reads
`self.keep_going` from) are separate states. -/
structure ForkedAdapter where
  parent : ApiProductState
  child : ApiProductState

/-- The fork performed by `Process(target=loop).start()`: both processes
start from the same adapter state. -/
def ApiAdapter.run_fork (s : ApiProductState) : ForkedAdapter := ⟨s, s⟩

/-- `ApiProduct.shutdown` invoked on the parent after the fork: the
assignment `self.keep_going = False` (src/app/api.py line 79) mutates only
the parent process's copy of the adapter; the child's copy is untouched. -/
def ForkedAdapter.shutdown (f : ForkedAdapter) : ForkedAdapter :=
  ⟨ApiProduct.shutdown f.parent, f.child⟩

/-- C8 (what the code does at the failing input): after the fork performed
by `run()`, `shutdown()` clears the keep-going flag only in the parent
process's copy of the adapter, while the child's copy — the one the loop
guard reads — keeps its pre-fork value; so from a running state the loop
dispatches every configured call on the pass after the shutdown and keeps
going, contradicting the claim that no further calls are dispatched once
the pass current at shutdown time completes. -/
theorem C8_shutdown_not_observed (s : ApiProductState) (calls : List String) (fuel : Nat) :
    ((ApiAdapter.run_fork s).shutdown).parent.keep_going = false ∧
    ((ApiAdapter.run_fork s).shutdown).child.keep_going = s.keep_going ∧
    (s.keep_going = true →
      ApiAdapter.loop ((ApiAdapter.run_fork s).shutdown).child.keep_going
          calls (fuel + 1) =
        calls ++ ApiAdapter.loop s.keep_going calls fuel) := by
  refine ⟨?_, rfl, ?_⟩
  · show (ApiProduct.shutdown s).keep_going = false
    unfold ApiProduct.shutdown
    by_cases h : s.api_has_shutdown <;> simp [h]
  · intro h
    show ApiAdapter.loop s.keep_going calls (fuel + 1) = _
    rw [h]
    simp [ApiAdapter.loop]

/-- C8 witness: a concrete running adapter with one configured call — after
the fork and a parent-side shutdown, the child's loop still dispatches the
call on its next pass. -/
theorem C8_witness :
    ((ApiAdapter.run_fork ⟨true, false, false⟩).shutdown).parent.keep_going = false ∧
    ApiAdapter.loop
        ((ApiAdapter.run_fork ⟨true, false, false⟩).shutdown).child.keep_going
        ["ticker"] 1 = ["ticker"] ++ ApiAdapter.loop true ["ticker"] 0 :=
  ⟨(C8_shutdown_not_observed ⟨true, false, false⟩ ["ticker"] 0).1,
   (C8_shutdown_not_observed ⟨true, false, false⟩ ["ticker"] 0).2.2 rfl⟩

/-! ### Claim C10 -/

/-- C10: if the caller-supplied callback itself raises when invoked with a
successfully shaped result, that exception is caught by the result-shaping
wrapper and re-raised as the same diagnostic failure a genuine shaping
failure produces, indistinguishable at the caller. -/
theorem C10_callback_failure_diag {V : Type} (callname : String) (result : V) :
    (∀ (a : ApiAdapter V) (shaped : V) (e : PyErr),
      a.api.resultShape callname result = Except.ok shaped →
      a.callback shaped = Except.error e →
      a.generate_result callname result =
        Except.error (ApiFailure.resultDiag callname result)) ∧
    (∀ (b : ApiAdapter V) (e : PyErr),
      b.api.resultShape callname result = Except.error e →
      b.generate_result callname result =
        Except.error (ApiFailure.resultDiag callname result)) := by
  constructor
  · intro a shaped e hok hcb
    simp [ApiAdapter.generate_result, hok, hcb]
  · intro b e herr
    simp [ApiAdapter.generate_result, herr]

/-- An adapter whose shaping succeeds but whose callback raises. -/
def raisingCallbackAdapter : ApiAdapter Nat :=
  ⟨bareHandle, fun _ => Except.error ⟨"callback exploded"⟩⟩

/-- C10 witness: a raising callback and a genuine shaping failure evaluated
on concrete adapters produce the identical diagnostic failure. -/
theorem C10_witness :
    raisingCallbackAdapter.generate_result "ticker" 3 =
      Except.error (ApiFailure.resultDiag "ticker" 3) ∧
    failingShapeAdapter.generate_result "ticker" 3 =
      Except.error (ApiFailure.resultDiag "ticker" 3) :=
  ⟨(C10_callback_failure_diag "ticker" 3).1 raisingCallbackAdapter 3
      ⟨"callback exploded"⟩ rfl rfl,
   (C10_callback_failure_diag "ticker" 3).2 failingShapeAdapter
      ⟨"schema mismatch"⟩ rfl⟩

/-! ### Claim C3 -/

/-- The invariant the spec states of the derived symbol universe: every
derived symbol is an available symbol and is the slash-join of an ordered
pair of configured-currency entries (self-pairs included). -/
def symbolInv {V : Type} (ex : CCXTExchange V) : Prop :=
  ∀ s ∈ ex.symbols.getD [], s ∈ ex.avail_symbols.getD [] ∧
    ∃ a ∈ (ex._currencies.getD []).map Prod.fst,
      ∃ b ∈ (ex._currencies.getD []).map Prod.fst, s = a ++ "/" ++ b

/-- Every symbol derived by `symbolsOf` is an available symbol of the client
and the slash-join of two configured-currency keys. -/
theorem symbolsOf_spec {V : Type} (ex : CCXTExchange V) :
    ∀ s ∈ symbolsOf ex, s ∈ ex._ex.symbols ∧
      ∃ a ∈ (confCurrenciesOf ex).map Prod.fst,
        ∃ b ∈ (confCurrenciesOf ex).map Prod.fst, s = a ++ "/" ++ b := by
  intro s hs
  unfold symbolsOf at hs
  rw [List.mem_map] at hs
  obtain ⟨p, hp, hjoin⟩ := hs
  rw [List.mem_filter] at hp
  obtain ⟨hmem, hdec⟩ := hp
  obtain ⟨a, b⟩ := p
  have hab := List.mem_product.mp hmem
  refine ⟨?_, a, hab.1, b, hab.2, ?_⟩
  · rw [← hjoin]
    exact of_decide_eq_true hdec
  · rw [← hjoin]
    rfl

/-- C3: for every exchange after a successful metadata load, the derived
symbol universe is a subset of the exchange's available-symbol set, and
every element of it is the slash-join of an ordered pair of entries of the
configured-currency set (self-pairs included): a fresh load establishes the
invariant and a load on an already-populated exchange preserves it. -/
theorem C3_symbol_universe_invariant {V : Type} (ex ex' : CCXTExchange V) (reload : Bool)
    (hload : ex.load reload = some ex') :
    (symbolInv ex → symbolInv ex') ∧ (ex.markets = none → symbolInv ex') := by
  unfold CCXTExchange.load at hload
  by_cases hguard : (ex.markets.isSome && !reload) = true
  · rw [if_pos hguard] at hload
    cases hload
    refine ⟨id, ?_⟩
    intro hm
    rw [hm] at hguard
    simp at hguard
  · rw [if_neg hguard] at hload
    cases hmk : marketsOf ex with
    | none =>
        rw [hmk] at hload
        cases hload
    | some markets =>
        rw [hmk] at hload
        dsimp only at hload
        cases hload
        refine ⟨fun _ => ?_, fun _ => ?_⟩ <;>
          · intro s hs
            simpa using symbolsOf_spec ex s (by simpa using hs)

/-- A concrete exchange before its first load, whose client already holds
its metadata. -/
def freshExchange : CCXTExchange Nat where
  name := "binance"
  currencies := ["BTC", "USD"]
  _ex :=
    { loaded_markets := [("BTC/USD", 1)]
      currencies := [("BTC", 0), ("USD", 0)]
      symbols := ["BTC/USD"]
      methods := fun _ => none }

/-- C3 witness: loading the concrete fresh exchange yields the concrete
loaded exchange, and the symbol-universe invariant holds of it. -/
theorem C3_witness :
    freshExchange.load false = some loadedExchange ∧ symbolInv loadedExchange :=
  ⟨rfl, (C3_symbol_universe_invariant freshExchange loadedExchange false rfl).2 rfl⟩

/-! ### Claim C2 -/

/-- The per-exchange success entries of a fan-out dispatch: one entry per
exchange whose call succeeds, keyed by its name, in iteration order. -/
def successEntries {V : Type} (callname : String) (args : Option V) :
    List (CCXTExchange V) → List (String × V)
  | [] => []
  | ex :: rest =>
      match ex.call callname args with
      | Except.ok v => (ex.name, v) :: successEntries callname args rest
      | Except.error _ => successEntries callname args rest

/-- The first exception of a non-exchange kind raised along the iteration,
the one that aborts the dispatch. -/
def firstOtherError {V : Type} (callname : String) (args : Option V) :
    List (CCXTExchange V) → Option CCXTError
  | [] => none
  | ex :: rest =>
      match ex.call callname args with
      | Except.error e =>
          if e.isExchangeKind then firstOtherError callname args rest else some e
      | Except.ok _ => firstOtherError callname args rest

/-- Whether an exchange's call raises one of the two caught kinds. -/
def failsExchangeKind {V : Type} (callname : String) (args : Option V)
    (ex : CCXTExchange V) : Bool :=
  match ex.call callname args with
  | Except.error e => e.isExchangeKind
  | Except.ok _ => false

/-- A key that occurs in no entry of an association list is not found. -/
theorem lookup_eq_none_of_not_mem {α : Type} (d : List (String × α)) (k : String)
    (h : k ∉ d.map Prod.fst) : d.lookup k = none := by
  induction d with
  | nil => rfl
  | cons kv rest ih =>
    obtain ⟨k0, v0⟩ := kv
    simp only [List.map_cons, List.mem_cons, not_or] at h
    simp [List.lookup_cons, beq_false_of_ne h.1, ih h.2]

/-- When no non-exchange error occurs and the exchange names are fresh for
the accumulated results and pairwise distinct, the fan-out loop returns the
accumulated results extended by one entry per succeeding exchange. -/
theorem callOnExchangesAux_ok {V : Type} (callname : String) (args : Option V) :
    ∀ (exs : List (CCXTExchange V)) (acc : List (String × V)),
      firstOtherError callname args exs = none →
      (acc.map Prod.fst ++ exs.map CCXTExchange.name).Nodup →
      callOnExchangesAux callname args exs acc =
        Except.ok (acc ++ successEntries callname args exs) := by
  intro exs
  induction exs with
  | nil =>
    intro acc _ _
    simp [callOnExchangesAux, successEntries]
  | cons ex rest ih =>
    intro acc hfirst hnodup
    simp only [List.map_cons] at hnodup
    cases hc : ex.call callname args with
    | ok v =>
        have hfresh : acc.lookup ex.name = none := by
          apply lookup_eq_none_of_not_mem
          intro hmem
          rw [List.nodup_append] at hnodup
          exact hnodup.2.2 hmem (List.mem_cons_self _ _)
        have hfirst' : firstOtherError callname args rest = none := by
          simpa [firstOtherError, hc] using hfirst
        have hnodup' :
            ((acc ++ [(ex.name, v)]).map Prod.fst ++ rest.map CCXTExchange.name).Nodup := by
          simpa [List.map_append, List.append_assoc] using hnodup
        calc callOnExchangesAux callname args (ex :: rest) acc
            = callOnExchangesAux callname args rest (dictInsert acc ex.name v) := by
              simp [callOnExchangesAux, hc]
          _ = Except.ok ((acc ++ [(ex.name, v)]) ++ successEntries callname args rest) := by
              rw [dictInsert_of_fresh acc ex.name v hfresh]
              exact ih _ hfirst' hnodup'
          _ = Except.ok (acc ++ successEntries callname args (ex :: rest)) := by
              simp [successEntries, hc]
    | error e =>
        have hnodup' : (acc.map Prod.fst ++ rest.map CCXTExchange.name).Nodup :=
          hnodup.sublist
            (List.Sublist.append_left (List.sublist_cons_self _ _) _)
        cases e with
        | exchangeNotAvailable =>
            have hfirst' : firstOtherError callname args rest = none := by
              simpa [firstOtherError, hc, CCXTError.isExchangeKind] using hfirst
            calc callOnExchangesAux callname args (ex :: rest) acc
                = callOnExchangesAux callname args rest acc := by
                  simp [callOnExchangesAux, hc]
              _ = Except.ok (acc ++ successEntries callname args rest) :=
                  ih _ hfirst' hnodup'
              _ = Except.ok (acc ++ successEntries callname args (ex :: rest)) := by
                  simp [successEntries, hc]
        | exchangeError =>
            have hfirst' : firstOtherError callname args rest = none := by
              simpa [firstOtherError, hc, CCXTError.isExchangeKind] using hfirst
            calc callOnExchangesAux callname args (ex :: rest) acc
                = callOnExchangesAux callname args rest acc := by
                  simp [callOnExchangesAux, hc]
              _ = Except.ok (acc ++ successEntries callname args rest) :=
                  ih _ hfirst' hnodup'
              _ = Except.ok (acc ++ successEntries callname args (ex :: rest)) := by
                  simp [successEntries, hc]
        | typeError e' =>
            simp [firstOtherError, hc, CCXTError.isExchangeKind] at hfirst
        | attributeError m =>
            simp [firstOtherError, hc, CCXTError.isExchangeKind] at hfirst
        | other e' =>
            simp [firstOtherError, hc, CCXTError.isExchangeKind] at hfirst

/-- The first non-exchange error aborts the whole dispatch and is the
exception the fan-out loop propagates. -/
theorem callOnExchangesAux_error {V : Type} (callname : String) (args : Option V) :
    ∀ (exs : List (CCXTExchange V)) (acc : List (String × V)) (e : CCXTError),
      firstOtherError callname args exs = some e →
      callOnExchangesAux callname args exs acc = Except.error e := by
  intro exs
  induction exs with
  | nil =>
    intro acc e h
    simp [firstOtherError] at h
  | cons ex rest ih =>
    intro acc e h
    cases hc : ex.call callname args with
    | ok v =>
        have h' : firstOtherError callname args rest = some e := by
          simpa [firstOtherError, hc] using h
        simpa [callOnExchangesAux, hc] using ih _ e h'
    | error err =>
        cases err with
        | exchangeNotAvailable =>
            have h' : firstOtherError callname args rest = some e := by
              simpa [firstOtherError, hc, CCXTError.isExchangeKind] using h
            simpa [callOnExchangesAux, hc] using ih _ e h'
        | exchangeError =>
            have h' : firstOtherError callname args rest = some e := by
              simpa [firstOtherError, hc, CCXTError.isExchangeKind] using h
            simpa [callOnExchangesAux, hc] using ih _ e h'
        | typeError e' =>
            have he : CCXTError.typeError e' = e := by
              simpa [firstOtherError, hc, CCXTError.isExchangeKind] using h
            rw [← he]
            simp [callOnExchangesAux, hc]
        | attributeError m =>
            have he : CCXTError.attributeError m = e := by
              simpa [firstOtherError, hc, CCXTError.isExchangeKind] using h
            rw [← he]
            simp [callOnExchangesAux, hc]
        | other e' =>
            have he : CCXTError.other e' = e := by
              simpa [firstOtherError, hc, CCXTError.isExchangeKind] using h
            rw [← he]
            simp [callOnExchangesAux, hc]

/-- When no non-exchange error occurs, the number of success entries plus
the number of exchange-kind failures is the number of exchanges. -/
theorem successEntries_length {V : Type} (callname : String) (args : Option V) :
    ∀ exs : List (CCXTExchange V),
      firstOtherError callname args exs = none →
      (successEntries callname args exs).length +
        (exs.filter (failsExchangeKind callname args)).length = exs.length := by
  intro exs
  induction exs with
  | nil =>
    intro _
    simp [successEntries]
  | cons ex rest ih =>
    intro h
    cases hc : ex.call callname args with
    | ok v =>
        have h' : firstOtherError callname args rest = none := by
          simpa [firstOtherError, hc] using h
        have hf : failsExchangeKind callname args ex = false := by
          simp [failsExchangeKind, hc]
        have hrest := ih h'
        simp only [successEntries, hc, List.length_cons, List.filter_cons, hf]
        simp only [Bool.false_eq_true, if_false]
        omega
    | error e =>
        cases e with
        | exchangeNotAvailable =>
            have h' : firstOtherError callname args rest = none := by
              simpa [firstOtherError, hc, CCXTError.isExchangeKind] using h
            have hf : failsExchangeKind callname args ex = true := by
              simp [failsExchangeKind, hc, CCXTError.isExchangeKind]
            have hrest := ih h'
            simp only [successEntries, hc, List.length_cons, List.filter_cons, hf, if_true]
            omega
        | exchangeError =>
            have h' : firstOtherError callname args rest = none := by
              simpa [firstOtherError, hc, CCXTError.isExchangeKind] using h
            have hf : failsExchangeKind callname args ex = true := by
              simp [failsExchangeKind, hc, CCXTError.isExchangeKind]
            have hrest := ih h'
            simp only [successEntries, hc, List.length_cons, List.filter_cons, hf, if_true]
            omega
        | typeError e' =>
            simp [firstOtherError, hc, CCXTError.isExchangeKind] at h
        | attributeError m =>
            simp [firstOtherError, hc, CCXTError.isExchangeKind] at h
        | other e' =>
            simp [firstOtherError, hc, CCXTError.isExchangeKind] at h

/-- C2: over N configured exchanges with pairwise-distinct names, when every
failure is one of the two exchange-error kinds (M exchanges failing), the
dispatch returns — without any exception escaping — a mapping with exactly
N−M entries, one per non-failing exchange keyed by its name; and when any
exchange raises any other exception, that exception propagates and aborts
the whole dispatch. -/
theorem C2_fanout_partial_results {V : Type}
    (class_ex : List (String × CCXTExchange V)) (callname : String) (args : Option V)
    (hnodup : ((class_ex.map Prod.snd).map CCXTExchange.name).Nodup) :
    (firstOtherError callname args (class_ex.map Prod.snd) = none →
      CCXT.call_on_exchanges class_ex callname args =
        Except.ok (successEntries callname args (class_ex.map Prod.snd)) ∧
      (successEntries callname args (class_ex.map Prod.snd)).length =
        class_ex.length -
          ((class_ex.map Prod.snd).filter (failsExchangeKind callname args)).length) ∧
    (∀ e, firstOtherError callname args (class_ex.map Prod.snd) = some e →
      CCXT.call_on_exchanges class_ex callname args = Except.error e) := by
  constructor
  · intro hfirst
    constructor
    · have h := callOnExchangesAux_ok callname args (class_ex.map Prod.snd) []
        hfirst (by simpa using hnodup)
      simpa [CCXT.call_on_exchanges] using h
    · have hlen := successEntries_length callname args (class_ex.map Prod.snd) hfirst
      have hN : (class_ex.map Prod.snd).length = class_ex.length := by simp
      omega
  · intro e he
    exact callOnExchangesAux_error callname args _ [] e he

/-- A concrete exchange whose every call raises `ExchangeNotAvailable`. -/
def unavailableExchange : CCXTExchange Nat where
  name := "kraken"
  currencies := []
  _ex :=
    { loaded_markets := []
      currencies := []
      symbols := []
      methods := fun _ => some fun _ => Except.error CCXTError.exchangeNotAvailable }

/-- A concrete healthy exchange whose every call returns 42. -/
def healthyExchange : CCXTExchange Nat where
  name := "bittrex"
  currencies := []
  _ex :=
    { loaded_markets := []
      currencies := []
      symbols := []
      methods := fun _ => some fun _ => Except.ok 42 }

/-- C2 witness: over the two concrete exchanges, one unavailable and one
healthy, the dispatch returns the single healthy entry — size 2−1 — with no
exception escaping. -/
theorem C2_witness :
    CCXT.call_on_exchanges
        [("kraken", unavailableExchange), ("bittrex", healthyExchange)]
        "fetchTicker" none = Except.ok [("bittrex", 42)] ∧
    (successEntries "fetchTicker" none [unavailableExchange, healthyExchange]).length = 2 - 1 := by
  have h := (C2_fanout_partial_results
      [("kraken", unavailableExchange), ("bittrex", healthyExchange)]
      "fetchTicker" none (by decide)).1 rfl
  exact ⟨h.1.trans (by rfl), h.2.trans (by rfl)⟩

/-! ### Claim C9 -/

/-- A lookup that succeeds before a run of constructor insertions still
succeeds after it. -/
theorem lookup_foldInsert_isSome_of_isSome {V : Type} (mk : String → CCXTExchange V) :
    ∀ (E : List String) (d : List (String × CCXTExchange V)) (n : String),
      ((d.lookup n)).isSome →
      (((E.foldl (fun d exch => dictInsert d exch (mk exch)) d).lookup n)).isSome := by
  intro E
  induction E with
  | nil => intro d n h; exact h
  | cons e rest ih =>
    intro d n h
    apply ih
    by_cases hn : n = e
    · subst hn
      rw [lookup_dictInsert_self]
      rfl
    · rw [lookup_dictInsert_ne d e n (mk e) hn]
      exact h

/-- Every name a run of constructor insertions inserts is found
afterwards. -/
theorem lookup_foldInsert_isSome_of_mem {V : Type} (mk : String → CCXTExchange V) :
    ∀ (E : List String) (d : List (String × CCXTExchange V)) (n : String), n ∈ E →
      (((E.foldl (fun d exch => dictInsert d exch (mk exch)) d).lookup n)).isSome := by
  intro E
  induction E with
  | nil => intro d n h; cases h
  | cons e rest ih =>
    intro d n h
    cases List.mem_cons.mp h with
    | inl heq =>
        subst heq
        simp only [List.foldl_cons]
        exact lookup_foldInsert_isSome_of_isSome mk rest (dictInsert d n (mk n)) n
          (by rw [lookup_dictInsert_self]; rfl)
    | inr hmem => exact ih _ n hmem

/-- A name found after a run of constructor insertions was either found
before or is one of the inserted names. -/
theorem lookup_foldInsert_isSome_inv {V : Type} (mk : String → CCXTExchange V) :
    ∀ (E : List String) (d : List (String × CCXTExchange V)) (n : String),
      (((E.foldl (fun d exch => dictInsert d exch (mk exch)) d).lookup n)).isSome →
      (d.lookup n).isSome ∨ n ∈ E := by
  intro E
  induction E with
  | nil => intro d n h; exact Or.inl h
  | cons e rest ih =>
    intro d n h
    cases ih _ n h with
    | inr hmem => exact Or.inr (List.mem_cons_of_mem _ hmem)
    | inl hbase =>
        by_cases hn : n = e
        · subst hn
          exact Or.inr (List.mem_cons_self _ _)
        · rw [lookup_dictInsert_ne d e n (mk e) hn] at hbase
          exact Or.inl hbase

/-- C9: the exchange mapping of the fan-out layer is class-level state
shared by all instances. In the model this is explicit: `CCXT.init` receives
the mapping accumulated by every previous construction and extends it in
place, so after constructing a first instance over `E1` and a second over
`E2` the one shared mapping holds exactly the names of `E1` and `E2`
together, and `CCXT.call_on_exchanges` — which reads only that shared
mapping, whichever instance it is invoked on — iterates the exchanges
accumulated across both constructions. -/
theorem C9_class_level_exchange_map {V : Type} (ccxt_exchanges : List String)
    (mk : String → CCXTExchange V) (E1 E2 : List String) (callname : String)
    (args : Option V) (h1 : E1 ≠ []) (h2 : E2 ≠ []) :
    ∀ n : String,
      ((n ∈ E1 ∨ n ∈ E2) →
        ((CCXT.init ccxt_exchanges mk
            (CCXT.init ccxt_exchanges mk [] (some E1)) (some E2)).lookup n).isSome) ∧
      (((CCXT.init ccxt_exchanges mk
            (CCXT.init ccxt_exchanges mk [] (some E1)) (some E2)).lookup n).isSome →
        n ∈ E1 ∨ n ∈ E2) ∧
      CCXT.call_on_exchanges
          (CCXT.init ccxt_exchanges mk
            (CCXT.init ccxt_exchanges mk [] (some E1)) (some E2)) callname args =
        callOnExchangesAux callname args
          ((CCXT.init ccxt_exchanges mk
            (CCXT.init ccxt_exchanges mk [] (some E1)) (some E2)).map Prod.snd) [] := by
  have he1 : E1.isEmpty = false := by
    cases E1 with
    | nil => exact absurd rfl h1
    | cons a l => rfl
  have he2 : E2.isEmpty = false := by
    cases E2 with
    | nil => exact absurd rfl h2
    | cons a l => rfl
  intro n
  unfold CCXT.init
  simp only [he1, he2, Bool.false_eq_true, if_false]
  refine ⟨?_, ?_, rfl⟩
  · intro hmem
    cases hmem with
    | inl hmem1 =>
        apply lookup_foldInsert_isSome_of_isSome
        exact lookup_foldInsert_isSome_of_mem mk E1 [] n hmem1
    | inr hmem2 =>
        exact lookup_foldInsert_isSome_of_mem mk E2 _ n hmem2
  · intro hsome
    cases lookup_foldInsert_isSome_inv mk E2 _ n hsome with
    | inr hm => exact Or.inr hm
    | inl hbase =>
        cases lookup_foldInsert_isSome_inv mk E1 [] n hbase with
        | inr hm => exact Or.inl hm
        | inl habs => simp [List.lookup] at habs

/-- A concrete exchange constructor for the C9 witness. -/
def mkNamedExchange (n : String) : CCXTExchange Nat where
  name := n
  currencies := []
  _ex := { loaded_markets := [], currencies := [], symbols := [], methods := fun _ => none }

/-- C9 witness: after constructing a first instance over kraken and a second
over bittrex, the shared class-level mapping holds both names. -/
theorem C9_witness :
    ((CCXT.init [] mkNamedExchange
        (CCXT.init [] mkNamedExchange [] (some ["kraken"])) (some ["bittrex"])).lookup
      "kraken").isSome ∧
    ((CCXT.init [] mkNamedExchange
        (CCXT.init [] mkNamedExchange [] (some ["kraken"])) (some ["bittrex"])).lookup
      "bittrex").isSome :=
  ⟨(C9_class_level_exchange_map [] mkNamedExchange ["kraken"] ["bittrex"] "fetchTicker"
      none (by simp) (by simp) "kraken").1 (Or.inl (by simp)),
   (C9_class_level_exchange_map [] mkNamedExchange ["kraken"] ["bittrex"] "fetchTicker"
      none (by simp) (by simp) "bittrex").1 (Or.inr (by simp))⟩

end Nombot
